import Mathlib

/-!
Shallow embedding of the ExSIP SIP event-subscription engine
(`ExSIP.Subscriber` / `ExSIP.Subscription`, RFC 6665 SUBSCRIBE/NOTIFY).

The JavaScript objects are embedded as explicit state:

* `World` collects the mutable fields of one `ExSIP.Subscriber` together with
  the heap of `ExSIP.Subscription` objects it has created (keyed by dialog id)
  and the subscriber's `subscriptions` registry (the map keys currently
  registered).  Observable side effects (requests sent, replies, callbacks
  invoked, dialog teardown, registry removal) are appended to an effect log.
* `Env` holds the subscriber fields that are fixed for its lifetime
  (`event`, `contact`, `to_uri`, `call_id`, configuration, `T1`) together with
  inputs supplied by external collaborators (`Date`, `getAllowedMethods`).
* JavaScript truthiness of an optional numeric header value (`undefined` and
  `0` are falsy) is made explicit in `jsTruthy` and `jsOrNat`.
-/

set_option linter.unusedVariables false

namespace ExSIP

/-- Failure causes reported through `onFailure` (the `ExSIP.C` constants used
by the subscriber code). -/
inductive Cause where
  | EXPIRES_HEADER_MISSING
  | INVALID_EXPIRES_HEADER
  | REQUEST_TIMEOUT
  | CONNECTION_ERROR
deriving DecidableEq, Repr

/-- An `ExSIP.OutgoingRequest` as built by `createSubscribeRequest`:
method, request-URI (`ua.configuration.registrar_server`), the `params`
fields the subscriber fills in, the pushed `extraHeaders` strings, and any
headers later installed with `setHeader`. -/
structure OutgoingRequest where
  method : String
  ruri : String
  to_uri : String
  call_id : String
  cseq : Nat
  from_tag : Option String
  extraHeaders : List String
  setHeaders : List (String × Nat)
deriving DecidableEq, Repr

/-- `request.setHeader(name, value)`: replaces any previous value for that
header name. -/
def OutgoingRequest.setHeader (r : OutgoingRequest) (name : String) (value : Nat) :
    OutgoingRequest :=
  { r with setHeaders := r.setHeaders.filter (fun p => p.1 != name) ++ [(name, value)] }

/-- Observable side effects of the subscriber engine, in program order:
requests handed to a `RequestSender`, SIP replies, `onFailure` callbacks
(`withResponse` records whether the raw response was attached),
`onTerminate`, deletion from `ua.sessions`, `onSubscriptionTerminate`,
`dialog.terminate()`, and the `receiveInfo` application callback. -/
inductive Effect where
  | sendRequest (request : OutgoingRequest)
  | reply (code : Nat) (contact : Option String)
  | onFailure (withResponse : Bool) (cause : Option Cause)
  | onTerminate
  | sessionsDelete
  | onSubscriptionTerminate (id : String)
  | dialogTerminate (id : String)
  | receiveInfo
deriving DecidableEq, Repr

/-- The fields of an `ExSIP.Dialog` that the subscription engine reads or
writes: its id and the `route_set` / `local_seqnum` fields overridden by the
backward-compatibility path. -/
structure DialogState where
  id : String
  route_set : List String
  local_seqnum : Option Nat
deriving DecidableEq, Repr

/-- Mutable state of one `ExSIP.Subscription` object: its `state` string,
negotiated `expires` (seconds), owned `dialog` (deleted by
`terminateDialog`), and the watchdog timer `N` (`some d` = armed with delay
`d` ms, `none` = not armed). -/
structure SubscriptionState where
  state : String
  expires : Nat
  dialog : Option DialogState
  N : Option Nat
deriving DecidableEq, Repr

/-- An incoming SIP response as read by the subscriber code:
`status_code`, the parsed `Expires` header (`none` when absent),
`getHeaderAll('record-route')`, `response.s('to').tag` and
`parseInt(response.s('cseq').value, 10)`. -/
structure Response where
  status_code : Nat
  expiresHeader : Option Nat
  record_route : List String
  to_tag : String
  cseq_value : Nat
deriving DecidableEq, Repr

/-- An incoming NOTIFY request as read by the subscriber code: presence of the
mandatory headers, the parsed event token, the `Subscription-State` header
(state token, optional `expires=` and `reason=` parameters) and the dialog
identification fields. -/
structure NotifyRequest where
  hasEvent : Bool
  hasSubscriptionState : Bool
  event : String
  ssState : String
  ssExpires : Option Nat
  ssReason : Option String
  from_tag : String
  to_tag : String
  call_id : String
deriving DecidableEq, Repr

/-- Subscriber fields fixed for its lifetime plus inputs from external
collaborators: `date` is what `new Date()` printed, `allow` is
`ExSIP.Utils.getAllowedMethods(ua)`, `T1` is `ExSIP.Timers.T1` in ms, and
`dialogRouteSet` is the route set the external `ExSIP.Dialog` constructor
computed from the message. -/
structure Env where
  event : String
  contact : String
  to_uri : String
  call_id : String
  registrar_server : String
  date : String
  allow : String
  T1 : Nat
  dialogRouteSet : List String
deriving DecidableEq, Repr

/-- Mutable state of one `ExSIP.Subscriber` together with the heap of the
`ExSIP.Subscription` objects it owns.  `heap` maps dialog ids to subscription
objects (objects survive removal from the registry, as in JS), `registry` is
the key set of `this.subscriptions`, `inSessions` records membership in
`ua.sessions`, and `effects` is the observable effect log. -/
structure World where
  state : String
  N : Option Nat
  inSessions : Bool
  cseq : Nat
  expires : Nat
  route_set_2xx : List String
  to_tag_2xx : Option String
  initial_local_seqnum : Option Nat
  heap : List (String × SubscriptionState)
  registry : List String
  effects : List Effect
deriving DecidableEq, Repr

/-- Lookup of `subscriptions[i]` in the object heap. -/
def findSub : List (String × SubscriptionState) → String → Option SubscriptionState
  | [], _ => none
  | p :: t, i => if p.1 = i then some p.2 else findSub t i

/-- In-place mutation of the subscription object stored under key `i`. -/
def setSub : List (String × SubscriptionState) → String → SubscriptionState →
    List (String × SubscriptionState)
  | [], _, _ => []
  | p :: t, i, s => (if p.1 = i then (i, s) else p) :: setSub t i s

/-- `subscriptions[i] = s`: JS map-assignment semantics (replace when the key
exists, append otherwise). -/
def heapPut (h : List (String × SubscriptionState)) (i : String) (s : SubscriptionState) :
    List (String × SubscriptionState) :=
  if (findSub h i).isSome then setSub h i s else h ++ [(i, s)]

/-- Key-set update matching `heapPut`. -/
def regPut (l : List String) (i : String) : List String :=
  if i ∈ l then l else l ++ [i]

/-- JS truthiness of an optional numeric value: `undefined` and `0` are
falsy. -/
def jsTruthy : Option Nat → Bool
  | none => false
  | some n => n != 0

/-- JS `a || b` for an optional numeric `a`: `undefined` and `0` fall back to
`b`. -/
def jsOrNat : Option Nat → Nat → Nat
  | none, d => d
  | some n, d => if n = 0 then d else n

/-- The fixed `this.error_codes` list of the `ExSIP.Subscription`
constructor. -/
def error_codes : List Nat := [404, 405, 410, 416, 480, 481, 482, 483, 484, 485, 489, 501, 604]

/-- `Subscriber.createSubscribeRequest(dialog, params)`: increments the
subscriber's `cseq`, pushes the five extra headers (the `Event` header is the
literal string `message-summary`) and builds the `OutgoingRequest`.  The
`dialog` argument is unused in the source body.  Nothing is sent. -/
def Subscriber.createSubscribeRequest (env : Env) (w : World)
    (dialog : Option DialogState) (from_tag : Option String) :
    World × OutgoingRequest :=
  let cseq := w.cseq + 1
  let extraHeaders := [
    "Contact: " ++ env.contact,
    "Event: message-summary",
    "Date: " ++ env.date,
    "Accept: application/simple-message-summary",
    "Allow: " ++ env.allow]
  ({ w with cseq := cseq },
   { method := "SUBSCRIBE", ruri := env.registrar_server, to_uri := env.to_uri,
     call_id := env.call_id, cseq := cseq, from_tag := from_tag,
     extraHeaders := extraHeaders, setHeaders := [] })

/-- `Subscription.unsubscribe()`: sets the subscription's state to
`terminated`, builds a SUBSCRIBE via `createSubscribeRequest`, installs
`Expires: 0` with `setHeader`, clears and re-arms the watchdog for
`T1 * 64` ms, and hands the request to a `RequestSender`.  The dialog is not
touched. -/
def Subscription.unsubscribe (env : Env) (w : World) (i : String) : World :=
  match findSub w.heap i with
  | none => w
  | some s =>
    let wr := Subscriber.createSubscribeRequest env w s.dialog none
    let request := wr.2.setHeader "Expires" 0
    { wr.1 with
      heap := setSub wr.1.heap i { s with state := "terminated", N := some (env.T1 * 64) },
      effects := wr.1.effects ++ [Effect.sendRequest request] }

/-- `Subscription.unsubscribe`'s `receiveResponse = function(){}`: the
response is ignored. -/
def Subscription.unsubscribeReceiveResponse (w : World) (r : Response) : World := w

/-- `Subscriber.close()`: guarded by `state !== 'terminated'`; sets the state,
clears the watchdog, unsubscribes every registered child subscription,
deletes the subscriber from `ua.sessions` and invokes `onTerminate`. -/
def Subscriber.close (env : Env) (w : World) : World :=
  if w.state ≠ "terminated" then
    let w1 := { w with state := "terminated", N := none }
    let w2 := w1.registry.foldl (fun acc i => Subscription.unsubscribe env acc i) w1
    { w2 with inSessions := false,
              effects := w2.effects ++ [Effect.sessionsDelete, Effect.onTerminate] }
  else w

/-- `Subscriber.timer_N()`: the initial watchdog fire just closes the
subscriber. -/
def Subscriber.timer_N (env : Env) (w : World) : World :=
  Subscriber.close env w

/-- `Subscriber.onSubscriptionTerminate(subscription)`: deletes the
subscription from the map and closes the subscriber when the map became
empty. -/
def Subscriber.onSubscriptionTerminate (env : Env) (w : World) (i : String) : World :=
  let w1 := { w with effects := w.effects ++ [Effect.onSubscriptionTerminate i],
                     registry := w.registry.filter (fun j => j != i) }
  if w1.registry = [] then Subscriber.close env w1 else w1

/-- `Subscription.close()`: unguarded; sets state to `terminated`, runs
`terminateDialog` (terminates and deletes the dialog when one is owned),
clears the watchdog and calls the parent's `onSubscriptionTerminate`. -/
def Subscription.close (env : Env) (w : World) (i : String) : World :=
  match findSub w.heap i with
  | none => w
  | some s =>
    let effs := match s.dialog with
      | some _ => [Effect.dialogTerminate i]
      | none => []
    let w1 := { w with heap := setSub w.heap i { s with state := "terminated", dialog := none, N := none },
                       effects := w.effects ++ effs }
    Subscriber.onSubscriptionTerminate env w1 i

/-- `Subscription.subscribe()` (renewal): builds a SUBSCRIBE for the owned
dialog, clears and re-arms the watchdog for `T1 * 64` ms and hands the
request to a `RequestSender`. -/
def Subscription.subscribe (env : Env) (w : World) (i : String) : World :=
  match findSub w.heap i with
  | none => w
  | some s =>
    let wr := Subscriber.createSubscribeRequest env w s.dialog none
    { wr.1 with
      heap := setSub wr.1.heap i { s with N := some (env.T1 * 64) },
      effects := wr.1.effects ++ [Effect.sendRequest wr.2] }

/-- `Subscription.timer_N()`: in state `terminated` close; in state `pending`
set `terminated` then close; otherwise attempt a renewal `subscribe()`. -/
def Subscription.timer_N (env : Env) (w : World) (i : String) : World :=
  match findSub w.heap i with
  | none => w
  | some s =>
    if s.state = "terminated" then Subscription.close env w i
    else if s.state = "pending" then
      Subscription.close env { w with heap := setSub w.heap i { s with state := "terminated" } } i
    else Subscription.subscribe env w i

/-- `Subscriber.matchEvent(request)`: fails on a missing `Event` header, a
missing `Subscription-State` header, or an event token differing from the
subscriber's configured event (the mismatch case also replies
`481 Event Match Failed`). -/
def Subscriber.matchEvent (env : Env) (req : NotifyRequest) : Bool × List Effect :=
  if !req.hasEvent then (false, [])
  else if !req.hasSubscriptionState then (false, [])
  else if env.event != req.event then (false, [Effect.reply 481 none])
  else (true, [])

/-- `Subscription.receiveRequest(request, initial)`: for a non-initial NOTIFY
re-verify `matchEvent` (short-circuited away when `initial`), then reply
`200` with the subscriber contact and dispatch on the `Subscription-State`
token; `active` marks the subscription active and delivers the body via
`receiveInfo` before falling through into `pending`'s watchdog re-arm for the
negotiated expires; `terminated` closes and then delivers the body. -/
def Subscription.receiveRequest (env : Env) (w : World) (i : String)
    (req : NotifyRequest) (initial : Bool) : World :=
  match findSub w.heap i with
  | none => w
  | some s =>
    let m := if initial then (true, []) else Subscriber.matchEvent env req
    if !m.1 then { w with effects := w.effects ++ m.2 }
    else
      let w1 := { w with effects := w.effects ++ m.2 ++ [Effect.reply 200 (some env.contact)] }
      if req.ssState = "active" ∨ req.ssState = "pending" then
        let w2 := if req.ssState = "active"
          then { w1 with effects := w1.effects ++ [Effect.receiveInfo] }
          else w1
        let s1 := if req.ssState = "active" then { s with state := "active" } else s
        let e := jsOrNat req.ssExpires s1.expires
        { w2 with heap := setSub w2.heap i { s1 with expires := e, N := some (e * 1000) } }
      else if req.ssState = "terminated" then
        let w2 := Subscription.close env w1 i
        { w2 with effects := w2.effects ++ [Effect.receiveInfo] }
      else w1

/-- Modelled from the spec: the `ExSIP.Dialog` constructor is not under
`src/`; per the dialog contract it is built from `(owner, message, role)`,
carries a mutable `route_set` and `local_seqnum`, and its id is
call-id + local tag + remote tag.  A JS `new` expression always yields an
object. -/
def newDialog (env : Env) (req : NotifyRequest) (local_tag remote_tag : String) : DialogState :=
  { id := req.call_id ++ local_tag ++ remote_tag,
    route_set := env.dialogRouteSet,
    local_seqnum := none }

/-- `Subscription.createConfirmedDialog(message, type)`: computes the tags for
the requested role and constructs the dialog.  The source then tests
`if (dialog)`; a freshly constructed object is always truthy in JS, so the
`return false` branch is unreachable and the pair's boolean is always
`true`. -/
def Subscription.createConfirmedDialog (env : Env) (req : NotifyRequest) (type : String) :
    Option DialogState × Bool :=
  let local_tag := if type = "UAS" then req.to_tag else req.from_tag
  let remote_tag := if type = "UAS" then req.from_tag else req.to_tag
  let dialog := newDialog env req local_tag remote_tag
  (some dialog, true)

/-- The `ExSIP.Subscription` constructor: create a confirmed UAS dialog, set
`this.id` from the dialog id, register in the parent's `subscriptions` map,
override the dialog's route set when the request's from-tag equals the 2xx
to-tag captured by the subscriber, seed `local_seqnum`, and process the
triggering request with `initial = true`. -/
def Subscription.new (env : Env) (w : World) (req : NotifyRequest)
    (state : String) (expires : Nat) : World :=
  match Subscription.createConfirmedDialog env req "UAS" with
  | (some dialog, true) =>
    let i := dialog.id
    let dialog1 := if some req.from_tag = w.to_tag_2xx
      then { dialog with route_set := w.route_set_2xx }
      else dialog
    let dialog2 := { dialog1 with local_seqnum := w.initial_local_seqnum }
    let s : SubscriptionState :=
      { state := state, expires := expires, dialog := some dialog2, N := none }
    let w1 := { w with heap := heapPut w.heap i s, registry := regPut w.registry i }
    Subscription.receiveRequest env w1 i req true
  | _ => w

/-- `Subscriber.receiveRequest(request)`: validate with `matchEvent`, compute
`subscription_state.expires || this.expires`, then dispatch on the state
token: `pending`/`active` cancel the initial watchdog and construct a new
`ExSIP.Subscription`; `terminated` cancels the watchdog and closes; any other
token falls off the switch. -/
def Subscriber.receiveRequest (env : Env) (w : World) (req : NotifyRequest) : World :=
  let m := Subscriber.matchEvent env req
  let w1 := { w with effects := w.effects ++ m.2 }
  if !m.1 then w1
  else
    let expires := jsOrNat req.ssExpires w1.expires
    if req.ssState = "pending" ∨ req.ssState = "active" then
      Subscription.new env { w1 with N := none } req req.ssState expires
    else if req.ssState = "terminated" then
      Subscriber.close env { w1 with N := none }
    else w1

/-- The `receiveResponse` closure of `Subscriber.subscribe()` for the initial
SUBSCRIBE: 1xx ignored; on 2xx, when the `Expires` value is truthy and at most
the requested expires, re-arm the watchdog for `expires * 1000` ms and capture
`route_set_2xx` / `to_tag_2xx` / `initial_local_seqnum`, otherwise close and
report `EXPIRES_HEADER_MISSING` (falsy value) or `INVALID_EXPIRES_HEADER`;
any other final response closes and reports failure with the response. -/
def Subscriber.receiveResponse (env : Env) (w : World) (r : Response) : World :=
  if 100 ≤ r.status_code ∧ r.status_code ≤ 199 then w
  else if 200 ≤ r.status_code ∧ r.status_code ≤ 299 then
    if jsTruthy r.expiresHeader ∧ r.expiresHeader.getD 0 ≤ w.expires then
      { w with N := some (r.expiresHeader.getD 0 * 1000),
               route_set_2xx := r.record_route.reverse,
               to_tag_2xx := some r.to_tag,
               initial_local_seqnum := some r.cseq_value }
    else
      let w1 := Subscriber.close env w
      if !jsTruthy r.expiresHeader then
        { w1 with effects := w1.effects ++ [Effect.onFailure false (some Cause.EXPIRES_HEADER_MISSING)] }
      else
        { w1 with effects := w1.effects ++ [Effect.onFailure false (some Cause.INVALID_EXPIRES_HEADER)] }
  else
    let w1 := Subscriber.close env w
    { w1 with effects := w1.effects ++ [Effect.onFailure true none] }

/-- The `receiveResponse` closure of `Subscription.subscribe()` (renewal):
a status code in `error_codes` closes and reports failure with the response
before anything else; 1xx ignored; 2xx handled as for the initial SUBSCRIBE
but against the subscription's negotiated expires; any other final response
closes and reports failure with the response. -/
def Subscription.receiveResponse (env : Env) (w : World) (i : String) (r : Response) : World :=
  if r.status_code ∈ error_codes then
    let w1 := Subscription.close env w i
    { w1 with effects := w1.effects ++ [Effect.onFailure true none] }
  else if 100 ≤ r.status_code ∧ r.status_code ≤ 199 then w
  else if 200 ≤ r.status_code ∧ r.status_code ≤ 299 then
    match findSub w.heap i with
    | none => w
    | some s =>
      if jsTruthy r.expiresHeader ∧ r.expiresHeader.getD 0 ≤ s.expires then
        { w with heap := setSub w.heap i { s with N := some (r.expiresHeader.getD 0 * 1000) } }
      else
        let w1 := Subscription.close env w i
        if !jsTruthy r.expiresHeader then
          { w1 with effects := w1.effects ++ [Effect.onFailure false (some Cause.EXPIRES_HEADER_MISSING)] }
        else
          { w1 with effects := w1.effects ++ [Effect.onFailure false (some Cause.INVALID_EXPIRES_HEADER)] }
  else
    let w1 := Subscription.close env w i
    { w1 with effects := w1.effects ++ [Effect.onFailure true none] }

/-- The `onRequestTimeout` closure of `Subscriber.subscribe()`: report the
failure, nothing else. -/
def Subscriber.onRequestTimeout (w : World) : World :=
  { w with effects := w.effects ++ [Effect.onFailure false (some Cause.REQUEST_TIMEOUT)] }

/-- The `onTransportError` closure of `Subscriber.subscribe()`: report the
failure, nothing else. -/
def Subscriber.onTransportError (w : World) : World :=
  { w with effects := w.effects ++ [Effect.onFailure false (some Cause.CONNECTION_ERROR)] }

/-- The `onRequestTimeout` closure of `Subscription.subscribe()` (same body in
`unsubscribe()`): report the failure through the parent subscriber, nothing
else. -/
def Subscription.onRequestTimeout (w : World) : World :=
  { w with effects := w.effects ++ [Effect.onFailure false (some Cause.REQUEST_TIMEOUT)] }

/-- The `onTransportError` closure of `Subscription.subscribe()` (same body in
`unsubscribe()`): report the failure through the parent subscriber, nothing
else. -/
def Subscription.onTransportError (w : World) : World :=
  { w with effects := w.effects ++ [Effect.onFailure false (some Cause.CONNECTION_ERROR)] }

/-- Number of `onSubscriptionTerminate` invocations recorded in an effect
log. -/
def countOnSubscriptionTerminate (l : List Effect) : Nat :=
  (l.filter (fun e => match e with
    | Effect.onSubscriptionTerminate _ => true
    | _ => false)).length

end ExSIP

namespace ExSIP

theorem findSub_setSub_self (h : List (String × SubscriptionState)) (i : String)
    (x : SubscriptionState) :
    findSub (setSub h i x) i = (findSub h i).map (fun _ => x) := by
  induction h with
  | nil => rfl
  | cons p t ih =>
    by_cases hp : p.1 = i
    · simp [findSub, setSub, hp]
    · simp [findSub, setSub, hp, ih]

theorem setSub_setSub (h : List (String × SubscriptionState)) (i : String)
    (x : SubscriptionState) :
    setSub (setSub h i x) i x = setSub h i x := by
  induction h with
  | nil => rfl
  | cons p t ih =>
    by_cases hp : p.1 = i
    · simp [setSub, hp, ih]
    · simp [setSub, hp, ih]

theorem unsubscribe_state (env : Env) (w : World) (i : String) :
    (Subscription.unsubscribe env w i).state = w.state := by
  unfold Subscription.unsubscribe
  split <;> rfl

theorem foldl_unsubscribe_state (env : Env) (l : List String) (w : World) :
    (l.foldl (fun acc i => Subscription.unsubscribe env acc i) w).state = w.state := by
  induction l generalizing w with
  | nil => rfl
  | cons j t ih => rw [List.foldl_cons, ih, unsubscribe_state]

theorem subscriberClose_state (env : Env) (w : World) :
    (Subscriber.close env w).state = "terminated" := by
  unfold Subscriber.close
  by_cases h : w.state = "terminated"
  · simp [h]
  · simp [h, foldl_unsubscribe_state]

theorem subscriberClose_of_terminated (env : Env) (w : World)
    (h : w.state = "terminated") : Subscriber.close env w = w := by
  unfold Subscriber.close
  simp [h]

end ExSIP

open ExSIP

/-- Sample subscriber configuration used by the concrete scenarios below. -/
def envM : Env :=
  { event := "message-summary", contact := "sip:alice@atlanta.example.com",
    to_uri := "sip:alice@example.com", call_id := "cid1",
    registrar_server := "sip:registrar.example.com",
    date := "Thu, 01 Jan 2026 00:00:00 GMT", allow := "ACK,CANCEL,BYE,OPTIONS",
    T1 := 500, dialogRouteSet := [] }

/-- Sample confirmed dialog. -/
def dlgA : DialogState := { id := "d1", route_set := [], local_seqnum := some 81 }

/-- Sample active subscription owning `dlgA`. -/
def subA : SubscriptionState :=
  { state := "active", expires := 300, dialog := some dlgA, N := some 300000 }

/-- Sample subscriber world owning the single active subscription `d1`. -/
def wrldA : World :=
  { state := "notify_wait", N := some 32000, inSessions := true, cseq := 81,
    expires := 180, route_set_2xx := [], to_tag_2xx := none,
    initial_local_seqnum := some 81, heap := [("d1", subA)], registry := ["d1"],
    effects := [] }

/-- Sample subscriber world before any subscription exists. -/
def wrldB : World := { wrldA with heap := [], registry := [] }

/-- Sample NOTIFY with `Subscription-State: active;expires=60` matching the
configured event. -/
def ntfyActive : NotifyRequest :=
  { hasEvent := true, hasSubscriptionState := true, event := "message-summary",
    ssState := "active", ssExpires := some 60, ssReason := none,
    from_tag := "ft", to_tag := "tt", call_id := "cid1" }

/-- C3. The claim says a transaction timeout or transport error on a
SUBSCRIBE makes the affected entity call `close()` (reaching `terminated`)
before reporting failure.  At this concrete input the subscriber's timeout
handler leaves the state `notify_wait`, the watchdog armed and the
subscription heap untouched: `close()` is not called. -/
theorem C3_counterexample :
    (Subscriber.onRequestTimeout wrldA).state = "notify_wait" ∧
    (Subscriber.onRequestTimeout wrldA).state ≠ "terminated" ∧
    (Subscriber.onRequestTimeout wrldA).N = some 32000 ∧
    (Subscriber.onRequestTimeout wrldA).effects =
      [Effect.onFailure false (some Cause.REQUEST_TIMEOUT)] ∧
    (findSub (Subscription.onRequestTimeout wrldA).heap "d1").map (fun s => s.state) =
      some "active" ∧
    (Subscription.onTransportError wrldA).effects =
      [Effect.onFailure false (some Cause.CONNECTION_ERROR)] := by
  refine ⟨rfl, by decide, rfl, rfl, by decide, rfl⟩

/-- C3 (amended): on a transaction timeout or transport error — for the
subscriber's initial SUBSCRIBE and for a subscription's renewal alike — the
handler only reports failure with cause `REQUEST_TIMEOUT` /
`CONNECTION_ERROR`; it does not call `close()`, so state, timers, dialogs and
the registry are untouched (termination is left to the already-armed 64×T1
watchdog). -/
theorem C3_timeout_transport_handlers : ∀ w : World,
    Subscriber.onRequestTimeout w =
      { w with effects := w.effects ++ [Effect.onFailure false (some Cause.REQUEST_TIMEOUT)] } ∧
    Subscriber.onTransportError w =
      { w with effects := w.effects ++ [Effect.onFailure false (some Cause.CONNECTION_ERROR)] } ∧
    Subscription.onRequestTimeout w =
      { w with effects := w.effects ++ [Effect.onFailure false (some Cause.REQUEST_TIMEOUT)] } ∧
    Subscription.onTransportError w =
      { w with effects := w.effects ++ [Effect.onFailure false (some Cause.CONNECTION_ERROR)] } :=
  fun _ => ⟨rfl, rfl, rfl, rfl⟩

/-- C7. The claim says the built SUBSCRIBE carries `Event` set to the
subscriber's configured event package and that construction is pure.  With
the configured event `presence` the request still carries the literal
`Event: message-summary` header, and construction mutates the subscriber by
incrementing `cseq`. -/
theorem C7_counterexample :
    ("Event: " ++ ({ envM with event := "presence" } : Env).event) ∉
      (Subscriber.createSubscribeRequest { envM with event := "presence" } wrldB none
        (some "ft")).2.extraHeaders ∧
    "Event: message-summary" ∈
      (Subscriber.createSubscribeRequest { envM with event := "presence" } wrldB none
        (some "ft")).2.extraHeaders ∧
    (Subscriber.createSubscribeRequest { envM with event := "presence" } wrldB none
        (some "ft")).1 ≠ wrldB := by
  refine ⟨by decide, by decide, by decide⟩

/-- C7 (amended): every SUBSCRIBE built by `createSubscribeRequest` carries
exactly the extra headers Contact (the subscriber's contact), the literal
`Event: message-summary` (regardless of the configured event package), Date,
`Accept: application/simple-message-summary` and Allow (the comma-joined
supported methods); `to_uri`/`call_id` come from the subscriber, the CSeq is
the incremented `cseq`; construction sends nothing and its only mutation of
the subscriber is that `cseq` increment. -/
theorem C7_createSubscribeRequest :
    ∀ (env : Env) (w : World) (dialog : Option DialogState) (from_tag : Option String),
      (Subscriber.createSubscribeRequest env w dialog from_tag).2.extraHeaders =
        ["Contact: " ++ env.contact, "Event: message-summary", "Date: " ++ env.date,
         "Accept: application/simple-message-summary", "Allow: " ++ env.allow] ∧
      (Subscriber.createSubscribeRequest env w dialog from_tag).2.method = "SUBSCRIBE" ∧
      (Subscriber.createSubscribeRequest env w dialog from_tag).2.to_uri = env.to_uri ∧
      (Subscriber.createSubscribeRequest env w dialog from_tag).2.call_id = env.call_id ∧
      (Subscriber.createSubscribeRequest env w dialog from_tag).2.cseq = w.cseq + 1 ∧
      (Subscriber.createSubscribeRequest env w dialog from_tag).1 = { w with cseq := w.cseq + 1 } :=
  fun _ _ _ _ => ⟨rfl, rfl, rfl, rfl, rfl, rfl⟩

/-- C8: `createConfirmedDialog` always returns `true` (a JS `new` expression
yields an object, which is truthy, so the `return false` branch is
unreachable), and therefore every `ExSIP.Subscription` constructed from the
subscriber registers itself under its dialog id (call-id + local tag +
remote tag for the UAS role) in the owning subscriber's `subscriptions` map
and then processes the triggering request with `initial = true`. -/
theorem C8_subscription_constructor :
    ∀ (env : Env) (req : NotifyRequest) (type : String) (w : World)
      (st : String) (exp : Nat),
      (Subscription.createConfirmedDialog env req type).2 = true ∧
      Subscription.new env w req st exp =
        Subscription.receiveRequest env
          { w with
            heap := heapPut w.heap (req.call_id ++ req.to_tag ++ req.from_tag)
              { state := st, expires := exp,
                dialog := some
                  { id := req.call_id ++ req.to_tag ++ req.from_tag,
                    route_set := if some req.from_tag = w.to_tag_2xx
                      then w.route_set_2xx else env.dialogRouteSet,
                    local_seqnum := w.initial_local_seqnum },
                N := none },
            registry := regPut w.registry (req.call_id ++ req.to_tag ++ req.from_tag) }
          (req.call_id ++ req.to_tag ++ req.from_tag) req true := by
  intro env req type w st exp
  refine ⟨rfl, ?_⟩
  by_cases hc : some req.from_tag = w.to_tag_2xx <;>
    simp [Subscription.new, Subscription.createConfirmedDialog, newDialog, hc]

/-- C9: an inbound NOTIFY that passes `matchEvent` but whose
`Subscription-State` token is none of `pending`, `active`, `terminated`
falls off the switch of `Subscriber.receiveRequest`: the subscriber is
returned unchanged — no subscription is created, `close()` is not called,
the watchdog stays armed and no reply is produced. -/
theorem C9_unknown_state_token (env : Env) (w : World) (req : NotifyRequest)
    (hev : req.hasEvent = true) (hss : req.hasSubscriptionState = true)
    (hmatch : env.event = req.event)
    (h1 : req.ssState ≠ "pending") (h2 : req.ssState ≠ "active")
    (h3 : req.ssState ≠ "terminated") :
    Subscriber.receiveRequest env w req = w := by
  simp [Subscriber.receiveRequest, Subscriber.matchEvent, hev, hss, hmatch, h1, h2, h3]

/-- C9 witness: the general theorem applied to the sample subscriber and a
matching NOTIFY carrying the unknown token `frozen`. -/
theorem C9_witness :
    Subscriber.receiveRequest envM wrldA { ntfyActive with ssState := "frozen" } = wrldA :=
  C9_unknown_state_token envM wrldA { ntfyActive with ssState := "frozen" }
    rfl rfl rfl (by decide) (by decide) (by decide)

/-- C10: a `Subscription-State` header with `expires=0` is handled exactly
like one with no `expires` parameter: both `Subscriber.receiveRequest` and
`Subscription.receiveRequest` fall back to the previously known expires
value (`subscription_state.expires || this.expires` is falsy at `0`). -/
theorem C10_zero_expires_as_absent :
    ∀ (env : Env) (w : World) (req : NotifyRequest) (i : String) (initial : Bool),
      Subscriber.receiveRequest env w { req with ssExpires := some 0 } =
        Subscriber.receiveRequest env w { req with ssExpires := none } ∧
      Subscription.receiveRequest env w i { req with ssExpires := some 0 } initial =
        Subscription.receiveRequest env w i { req with ssExpires := none } initial := by
  intro env w req i initial
  have h0 : ∀ d : Nat, jsOrNat (some 0) d = jsOrNat none d := fun _ => rfl
  constructor
  · simp [Subscriber.receiveRequest, Subscriber.matchEvent, Subscription.new,
      Subscription.createConfirmedDialog, newDialog, Subscription.receiveRequest, h0]
  · simp [Subscription.receiveRequest, Subscriber.matchEvent, h0]

/-- Sample 2xx response to the initial SUBSCRIBE carrying `Expires: 0`. -/
def respExp0 : Response :=
  { status_code := 200, expiresHeader := some 0, record_route := [], to_tag := "tt",
    cseq_value := 81 }

/-- Sample 2xx response to the initial SUBSCRIBE carrying `Expires: 120`
(the request asked for 180). -/
def respExp120 : Response :=
  { status_code := 200, expiresHeader := some 120,
    record_route := ["sip:p2.example.com", "sip:p1.example.com"], to_tag := "tt",
    cseq_value := 81 }

/-- C1. The claim says any 2xx whose `Expires` value is present and at most
the requested expires re-arms the watchdog for `expires*1000` ms.  A 2xx with
`Expires: 0` is present and `0 ≤ 180`, yet at this input the subscriber
closes (state `terminated`, watchdog cleared) and reports
`EXPIRES_HEADER_MISSING`: the JS guard `expires && expires <= this.expires`
treats the present value `0` as falsy. -/
theorem C1_counterexample :
    respExp0.expiresHeader = some 0 ∧ 0 ≤ wrldB.expires ∧
    200 ≤ respExp0.status_code ∧ respExp0.status_code ≤ 299 ∧
    (Subscriber.receiveResponse envM wrldB respExp0).N ≠ some (0 * 1000) ∧
    (Subscriber.receiveResponse envM wrldB respExp0).state = "terminated" ∧
    (Subscriber.receiveResponse envM wrldB respExp0).effects =
      [Effect.sessionsDelete, Effect.onTerminate,
       Effect.onFailure false (some Cause.EXPIRES_HEADER_MISSING)] := by
  refine ⟨rfl, by decide, by decide, by decide, by decide, by decide, by decide⟩

/-- C1 (amended): for a 2xx response to the initial SUBSCRIBE — if the
`Expires` header is present with a nonzero value at most the requested
expires, the watchdog is re-armed for exactly `expires*1000` ms and
`route_set_2xx`/`to_tag_2xx`/`initial_local_seqnum` are captured from the
response (so the watchdog is never armed with the requested value when the
2xx grants less); if the header is absent or its value is `0` (falsy, treated
like absent), the subscriber closes and reports `EXPIRES_HEADER_MISSING`; if
it is present, nonzero and greater than the requested expires, the subscriber
closes and reports `INVALID_EXPIRES_HEADER`. -/
theorem C1_subscriber_2xx_expires (env : Env) (w : World) (r : Response)
    (h2 : 200 ≤ r.status_code ∧ r.status_code ≤ 299) :
    (∀ e, r.expiresHeader = some e → e ≠ 0 → e ≤ w.expires →
      Subscriber.receiveResponse env w r =
        { w with N := some (e * 1000), route_set_2xx := r.record_route.reverse,
                 to_tag_2xx := some r.to_tag,
                 initial_local_seqnum := some r.cseq_value }) ∧
    (r.expiresHeader = none ∨ r.expiresHeader = some 0 →
      Subscriber.receiveResponse env w r =
        { Subscriber.close env w with
          effects := (Subscriber.close env w).effects ++
            [Effect.onFailure false (some Cause.EXPIRES_HEADER_MISSING)] }) ∧
    (∀ e, r.expiresHeader = some e → w.expires < e →
      Subscriber.receiveResponse env w r =
        { Subscriber.close env w with
          effects := (Subscriber.close env w).effects ++
            [Effect.onFailure false (some Cause.INVALID_EXPIRES_HEADER)] }) := by
  have hnp : ¬(100 ≤ r.status_code ∧ r.status_code ≤ 199) := by omega
  refine ⟨?_, ?_, ?_⟩
  · intro e he hne hle
    simp [Subscriber.receiveResponse, hnp, h2, he, jsTruthy, hne, hle]
  · intro habs
    rcases habs with he | he <;>
      simp [Subscriber.receiveResponse, hnp, h2, he, jsTruthy]
  · intro e he hgt
    have hne : e ≠ 0 := by omega
    have hnle : ¬(e ≤ w.expires) := by omega
    simp [Subscriber.receiveResponse, hnp, h2, he, jsTruthy, hne, hnle]

/-- C1 witness: a 2xx granting `Expires: 120` against a requested expires of
180 arms the watchdog for exactly 120000 ms and captures the dialog seed. -/
theorem C1_witness :
    (200 ≤ respExp120.status_code ∧ respExp120.status_code ≤ 299) ∧
    Subscriber.receiveResponse envM wrldB respExp120 =
      { wrldB with N := some (120 * 1000),
                   route_set_2xx := respExp120.record_route.reverse,
                   to_tag_2xx := some respExp120.to_tag,
                   initial_local_seqnum := some respExp120.cseq_value } :=
  ⟨by decide,
   (C1_subscriber_2xx_expires envM wrldB respExp120 (by decide)).1 120 rfl
     (by decide) (by decide)⟩

namespace ExSIP

theorem subscriberClose_heap_of_registry_nil (env : Env) (w : World)
    (h : w.registry = []) : (Subscriber.close env w).heap = w.heap := by
  unfold Subscriber.close
  by_cases hs : w.state = "terminated" <;> simp [hs, h]

theorem close_findSub (env : Env) (w : World) (i : String) (s : SubscriptionState)
    (hs : findSub w.heap i = some s) :
    findSub (Subscription.close env w i).heap i =
      some { s with state := "terminated", dialog := none, N := none } := by
  unfold Subscription.close Subscriber.onSubscriptionTerminate
  simp only [hs]
  by_cases hreg : w.registry.filter (fun j => j != i) = []
  · simp only [hreg, if_pos, if_true]
    rw [subscriberClose_heap_of_registry_nil]
    · simp [findSub_setSub_self, hs]
    · simp [hreg]
  · simp only [hreg, if_neg, if_false]
    simp [findSub_setSub_self, hs, hreg]

end ExSIP

/-- C4. The claim says the NOTIFY body is delivered to the application if and
only if the previous state was not already `active`.  At this input the
subscription is already `active`, yet the accepted
`Subscription-State: active` NOTIFY still triggers the `receiveInfo`
application callback: delivery is unconditional in the `active` case. -/
theorem C4_counterexample :
    subA.state = "active" ∧ findSub wrldA.heap "d1" = some subA ∧
    (Subscription.receiveRequest envM wrldA "d1" ntfyActive false).effects =
      [Effect.reply 200 (some envM.contact), Effect.receiveInfo] := by
  refine ⟨rfl, by decide, by decide⟩

/-- C4 (amended): every accepted NOTIFY with `Subscription-State: active`
received by a subscription in state `pending` or `active` moves the
subscription to `active`, re-arms its watchdog for the negotiated expires
(`subscription_state.expires || this.expires`, times 1000 ms), and always
delivers the NOTIFY body to the application via `receiveInfo` — regardless of
whether the previous state was already `active`. -/
theorem C4_notify_active (env : Env) (w : World) (i : String)
    (s : SubscriptionState) (req : NotifyRequest) (initial : Bool)
    (hs : findSub w.heap i = some s)
    (hstate : s.state = "pending" ∨ s.state = "active")
    (hss : req.ssState = "active")
    (hacc : initial = true ∨
      (req.hasEvent = true ∧ req.hasSubscriptionState = true ∧ env.event = req.event)) :
    Subscription.receiveRequest env w i req initial =
      { w with
        heap := setSub w.heap i
          { s with state := "active", expires := jsOrNat req.ssExpires s.expires,
                   N := some (jsOrNat req.ssExpires s.expires * 1000) },
        effects := w.effects ++
          [Effect.reply 200 (some env.contact), Effect.receiveInfo] } := by
  by_cases hinit : initial = true
  · simp [Subscription.receiveRequest, hs, hss, hinit]
  · rcases hacc with h | ⟨hev, hssh, hmatch⟩
    · exact absurd h hinit
    · simp [Subscription.receiveRequest, Subscriber.matchEvent, hs, hss, hinit,
        hev, hssh, hmatch]

/-- C4 witness: a subsequent matching `active` NOTIFY on the sample active
subscription re-arms the watchdog for 60000 ms and delivers the body. -/
theorem C4_witness :
    findSub wrldA.heap "d1" = some subA ∧
    Subscription.receiveRequest envM wrldA "d1" ntfyActive false =
      { wrldA with
        heap := setSub wrldA.heap "d1"
          { subA with state := "active", expires := jsOrNat ntfyActive.ssExpires subA.expires,
                      N := some (jsOrNat ntfyActive.ssExpires subA.expires * 1000) },
        effects := wrldA.effects ++
          [Effect.reply 200 (some envM.contact), Effect.receiveInfo] } :=
  ⟨by decide,
   C4_notify_active envM wrldA "d1" subA ntfyActive false (by decide)
     (Or.inr rfl) rfl (Or.inr ⟨rfl, rfl, rfl⟩)⟩

/-- C5. The claim says `unsubscribe()` closes the owned dialog immediately
(not deferred to a later timer fire).  At this input the dialog is still
owned and untouched after `unsubscribe()` returns — no `dialogTerminate`
effect is produced — and the watchdog has been re-armed for `T1 * 64` ms;
the dialog is only torn down when that timer fires. -/
theorem C5_counterexample :
    (findSub (Subscription.unsubscribe envM wrldA "d1").heap "d1").map
      (fun s => s.dialog) = some (some dlgA) ∧
    (∀ e ∈ (Subscription.unsubscribe envM wrldA "d1").effects,
      e ≠ Effect.dialogTerminate "d1") ∧
    (findSub (Subscription.unsubscribe envM wrldA "d1").heap "d1").map
      (fun s => s.N) = some (some (envM.T1 * 64)) ∧
    Effect.dialogTerminate "d1" ∈
      (Subscription.timer_N envM (Subscription.unsubscribe envM wrldA "d1") "d1").effects := by
  refine ⟨by decide, by decide, by decide, by decide⟩

/-- C5 (amended): `unsubscribe()` on a subscription in any state sends a
SUBSCRIBE carrying the `setHeader`-installed `Expires: 0`, ignores the
response entirely, moves the state to `terminated` and re-arms the watchdog
for `T1 * 64` ms — the owned dialog is left untouched, and it is closed only
when that watchdog fires (`timer_N` in state `terminated` runs `close()`). -/
theorem C5_unsubscribe (env : Env) (w : World) (i : String)
    (s : SubscriptionState) (hs : findSub w.heap i = some s) :
    findSub (Subscription.unsubscribe env w i).heap i =
      some { s with state := "terminated", N := some (env.T1 * 64) } ∧
    (Subscription.unsubscribe env w i).effects =
      w.effects ++ [Effect.sendRequest
        ((Subscriber.createSubscribeRequest env w s.dialog none).2.setHeader "Expires" 0)] ∧
    ((Subscriber.createSubscribeRequest env w s.dialog none).2.setHeader
        "Expires" 0).setHeaders = [("Expires", 0)] ∧
    ((Subscriber.createSubscribeRequest env w s.dialog none).2.setHeader
        "Expires" 0).method = "SUBSCRIBE" ∧
    (∀ (w2 : World) (r : Response), Subscription.unsubscribeReceiveResponse w2 r = w2) ∧
    Subscription.timer_N env (Subscription.unsubscribe env w i) i =
      Subscription.close env (Subscription.unsubscribe env w i) i := by
  have h1 : findSub (Subscription.unsubscribe env w i).heap i =
      some { s with state := "terminated", N := some (env.T1 * 64) } := by
    simp [Subscription.unsubscribe, hs, Subscriber.createSubscribeRequest,
      findSub_setSub_self]
  refine ⟨h1, ?_, rfl, rfl, fun _ _ => rfl, ?_⟩
  · simp [Subscription.unsubscribe, hs, Subscriber.createSubscribeRequest]
  · unfold Subscription.timer_N
    rw [h1]
    simp

/-- C5 witness: the amended behaviour at the sample active subscription. -/
theorem C5_witness :
    findSub wrldA.heap "d1" = some subA ∧
    findSub (Subscription.unsubscribe envM wrldA "d1").heap "d1" =
      some { subA with state := "terminated", N := some (envM.T1 * 64) } ∧
    Subscription.timer_N envM (Subscription.unsubscribe envM wrldA "d1") "d1" =
      Subscription.close envM (Subscription.unsubscribe envM wrldA "d1") "d1" :=
  ⟨by decide,
   (C5_unsubscribe envM wrldA "d1" subA (by decide)).1,
   (C5_unsubscribe envM wrldA "d1" subA (by decide)).2.2.2.2.2⟩

/-- C6: every renewal-SUBSCRIBE response whose status code is in
`error_codes` (404, 405, 410, 416, 480, 481, 482, 483, 484, 485, 489, 501, 604)
makes the subscription close (its state becomes `terminated`) and report
failure with the raw response attached — whatever the response's `Expires`
header says, since the `error_codes` test precedes the Expires handling. -/
theorem C6_renewal_error_codes (env : Env) (w : World) (i : String)
    (s : SubscriptionState) (r : Response)
    (hs : findSub w.heap i = some s) (hr : r.status_code ∈ error_codes) :
    Subscription.receiveResponse env w i r =
      { Subscription.close env w i with
        effects := (Subscription.close env w i).effects ++
          [Effect.onFailure true none] } ∧
    (findSub (Subscription.receiveResponse env w i r).heap i).map
      (fun s1 => s1.state) = some "terminated" := by
  have h1 : Subscription.receiveResponse env w i r =
      { Subscription.close env w i with
        effects := (Subscription.close env w i).effects ++
          [Effect.onFailure true none] } := by
    simp [Subscription.receiveResponse, hr]
  refine ⟨h1, ?_⟩
  rw [h1]
  have h2 := close_findSub env w i s hs
  simp [h2]

/-- C6 witness: a 480 renewal response carrying a perfectly valid
`Expires: 600` still terminates the sample subscription. -/
theorem C6_witness :
    findSub wrldA.heap "d1" = some subA ∧
    (480 : Nat) ∈ error_codes ∧
    (findSub (Subscription.receiveResponse envM wrldA "d1"
        { status_code := 480, expiresHeader := some 600, record_route := [],
          to_tag := "tt", cseq_value := 82 }).heap "d1").map
      (fun s1 => s1.state) = some "terminated" :=
  ⟨by decide, by decide,
   (C6_renewal_error_codes envM wrldA "d1" subA
     { status_code := 480, expiresHeader := some 600, record_route := [],
       to_tag := "tt", cseq_value := 82 } (by decide) (by decide)).2⟩

namespace ExSIP

theorem unsubscribe_registry (env : Env) (w : World) (i : String) :
    (Subscription.unsubscribe env w i).registry = w.registry := by
  unfold Subscription.unsubscribe
  split <;> rfl

theorem foldl_unsubscribe_registry (env : Env) (l : List String) (w : World) :
    (l.foldl (fun acc i => Subscription.unsubscribe env acc i) w).registry = w.registry := by
  induction l generalizing w with
  | nil => rfl
  | cons j t ih => rw [List.foldl_cons, ih, unsubscribe_registry]

theorem subscriberClose_registry (env : Env) (w : World) :
    (Subscriber.close env w).registry = w.registry := by
  unfold Subscriber.close
  by_cases h : w.state = "terminated" <;> simp [h, foldl_unsubscribe_registry]

theorem subscriptionClose_registry (env : Env) (w : World) (i : String)
    (s : SubscriptionState) (hs : findSub w.heap i = some s) :
    (Subscription.close env w i).registry = w.registry.filter (fun j => j != i) := by
  unfold Subscription.close Subscriber.onSubscriptionTerminate
  simp only [hs]
  by_cases hreg : w.registry.filter (fun j => j != i) = [] <;>
    simp [hreg, subscriberClose_registry]

theorem subscriptionClose_heap (env : Env) (w : World) (i : String)
    (s : SubscriptionState) (hs : findSub w.heap i = some s) :
    (Subscription.close env w i).heap =
      setSub w.heap i { s with state := "terminated", dialog := none, N := none } := by
  unfold Subscription.close Subscriber.onSubscriptionTerminate
  simp only [hs]
  by_cases hreg : w.registry.filter (fun j => j != i) = []
  · simp only [hreg, if_pos, if_true]
    rw [subscriberClose_heap_of_registry_nil]
    simp [hreg]
  · simp [hreg]

theorem subscriptionClose_state_of_filter_nil (env : Env) (w : World) (i : String)
    (s : SubscriptionState) (hs : findSub w.heap i = some s)
    (hf : w.registry.filter (fun j => j != i) = []) :
    (Subscription.close env w i).state = "terminated" := by
  unfold Subscription.close Subscriber.onSubscriptionTerminate
  simp only [hs, hf]
  simp [subscriberClose_state]

end ExSIP

/-- C2. The claim says `close()` is idempotent on a Subscription: N>1 calls
produce exactly one `onSubscriptionTerminate` side effect, and re-entrant
calls are no-ops once the state is terminated.  At this concrete input the
second `Subscription.close` is not a no-op: it invokes
`onSubscriptionTerminate` again, so two calls record two invocations
(`Subscription.close` has no `state !== terminated` guard). -/
theorem C2_counterexample :
    countOnSubscriptionTerminate
      (Subscription.close envM (Subscription.close envM wrldA "d1") "d1").effects = 2 ∧
    countOnSubscriptionTerminate
      (Subscription.close envM (Subscription.close envM wrldA "d1") "d1").effects ≠ 1 ∧
    Subscription.close envM (Subscription.close envM wrldA "d1") "d1" ≠
      Subscription.close envM wrldA "d1" := by
  refine ⟨by decide, by decide, by decide⟩

/-- C2 (amended): `Subscriber.close` is idempotent — it is guarded by
`state !== terminated`, so a second call is a complete no-op and registry
removal / `onTerminate` happen at most once.  `Subscription.close` is not
guarded: every call invokes the parent's `onSubscriptionTerminate` again, so
N calls record N invocations; however the repeated call has no further
effect — the second close only appends one more `onSubscriptionTerminate`
notification and leaves the subscription state, heap, registry, timers and
dialog exactly as the first close left them (the dialog is already deleted
and the subscriber-side close is guarded). -/
theorem C2_close_idempotence :
    (∀ (env : Env) (w : World),
      Subscriber.close env (Subscriber.close env w) = Subscriber.close env w) ∧
    (∀ (env : Env) (w : World) (i : String) (s : SubscriptionState),
      findSub w.heap i = some s →
      Subscription.close env (Subscription.close env w i) i =
        { Subscription.close env w i with
          effects := (Subscription.close env w i).effects ++
            [Effect.onSubscriptionTerminate i] }) := by
  constructor
  · intro env w
    exact subscriberClose_of_terminated env _ (subscriberClose_state env w)
  · intro env w i s hs
    have hA := close_findSub env w i s hs
    have hH := subscriptionClose_heap env w i s hs
    have hR := subscriptionClose_registry env w i s hs
    generalize hg : Subscription.close env w i = w1 at *
    have hB : setSub w1.heap i { s with state := "terminated", dialog := none, N := none } =
        w1.heap := by
      rw [hH, setSub_setSub]
    have hC : w1.registry.filter (fun j => j != i) = w1.registry := by
      rw [hR, List.filter_filter]
      simp
    unfold Subscription.close Subscriber.onSubscriptionTerminate
    rw [hA]
    simp only [hB, hC, List.append_nil]
    by_cases hnil : w1.registry = []
    · simp only [hnil, if_pos, if_true]
      have hterm : w1.state = "terminated" := by
        rw [← hg]
        apply subscriptionClose_state_of_filter_nil env w i s hs
        rw [← hR]
        exact hnil
      rw [subscriberClose_of_terminated]
      exact hterm
    · simp [hnil]

/-- C2 witness: the amended statement applied to the sample subscriber
(idempotent subscriber close) and its registered subscription `d1` (second
close only repeats the `onSubscriptionTerminate` notification). -/
theorem C2_witness :
    Subscriber.close envM (Subscriber.close envM wrldB) = Subscriber.close envM wrldB ∧
    (findSub wrldA.heap "d1" = some subA ∧
      Subscription.close envM (Subscription.close envM wrldA "d1") "d1" =
        { Subscription.close envM wrldA "d1" with
          effects := (Subscription.close envM wrldA "d1").effects ++
            [Effect.onSubscriptionTerminate "d1"] }) :=
  ⟨C2_close_idempotence.1 envM wrldB,
   by decide, C2_close_idempotence.2 envM wrldA "d1" subA (by decide)⟩
